import Mathlib

/-!
Shallow embedding of the n8n EXIF Reader node (`nodes/ExifReader/ExifReader.node.ts`):
the `formatFileSize` helper and the `execute` method, which decodes EXIF tags through
the external `exif-parser` collaborator and reshapes them into a structured JSON object.

JavaScript numbers are modelled as exact rationals (ℚ); `Math.log(b)/Math.log(1024)`
is modelled as the exact base-1024 integer logarithm, `Math.round` as rounding half
toward positive infinity, and `toFixed(2)`/`parseFloat` as exact rounding to two
decimal places. JSON values are a deep inductive type; objects are association lists
in property-insertion order. Fallible collaborators (binary-data helper, HTTP fetch,
EXIF parser) are supplied per item as `Except` outcomes, and `toLocaleString` as an
environment-given renderer, since its output is locale-dependent.
-/

namespace ExifReader

/-- JSON-like runtime values (JavaScript primitives, objects and arrays). An object is
an association list of properties in insertion order. -/
inductive JVal where
  | null
  | bool (b : Bool)
  | num (q : ℚ)
  | str (s : String)
  | obj (fields : List (String × JVal))
  | arr (elems : List JVal)

/-- Property access `o[k]` on an object given as an association list. -/
def getKey (fields : List (String × JVal)) (k : String) : Option JVal :=
  (fields.find? (fun kv => kv.1 == k)).map (fun kv => kv.2)

/-- The object `{...fields, [k]: v}`: overwrite `k` in place if present, else append it. -/
def setKey (fields : List (String × JVal)) (k : String) (v : JVal) : List (String × JVal) :=
  if fields.any (fun kv => kv.1 == k) then
    fields.map (fun kv => if kv.1 == k then (kv.1, v) else kv)
  else fields ++ [(k, v)]

/-- JS truthiness of a possibly-undefined number: `undefined` and `0` are falsy. -/
def truthyNum (v : Option ℚ) : Bool :=
  match v with
  | some q => decide (q ≠ 0)
  | none => false

/-- JS truthiness of a possibly-undefined string: `undefined` and `""` are falsy. -/
def truthyStr (v : Option String) : Bool :=
  match v with
  | some s => decide (s ≠ "")
  | none => false

/-- The JS expression `v || null` on a possibly-undefined number, with `null` as `none`. -/
def numOrNull (v : Option ℚ) : Option ℚ :=
  match v with
  | some q => if q = 0 then none else some q
  | none => none

/-- The JS expression `v || null` on a possibly-undefined string, with `null` as `none`. -/
def strOrNull (v : Option String) : Option String :=
  match v with
  | some s => if s = "" then none else some s
  | none => none

/-- A nullable number as a JSON value. -/
def jnum (v : Option ℚ) : JVal :=
  match v with
  | some q => JVal.num q
  | none => JVal.null

/-- A nullable string as a JSON value. -/
def jstr (v : Option String) : JVal :=
  match v with
  | some s => JVal.str s
  | none => JVal.null

/-- JavaScript `Math.round`: round half toward positive infinity. -/
def jsRound (q : ℚ) : ℤ := ⌊q + 1 / 2⌋

/-- JavaScript number-to-integer conversion as performed by the `Date` constructor:
truncate toward zero. -/
def jsTrunc (q : ℚ) : ℤ := if q < 0 then -⌊-q⌋ else ⌊q⌋

/-- The value of `parseFloat(q.toFixed(2))`: `q` rounded to two decimal places
(ties toward positive infinity, as `toFixed` does). -/
def roundTo2 (q : ℚ) : ℚ := (⌊q * 100 + 1 / 2⌋ : ℚ) / 100

/-- Smallest exponent `d` in `[e, e + fuel]` such that `q * 10 ^ d` is an integer. -/
def decExpAux (q : ℚ) : ℕ → ℕ → Option ℕ
  | e, 0 => if (q * 10 ^ e).den = 1 then some e else none
  | e, fuel + 1 => if (q * 10 ^ e).den = 1 then some e else decExpAux q (e + 1) fuel

/-- Number of decimal digits after the point in the shortest terminating decimal form of
`q`, searched up to 40 places (JS plain decimal notation never needs more before the
exponential regime takes over). -/
def decExp (q : ℚ) : Option ℕ := decExpAux q 0 40

/-- Left-pad a string with zeros to the given width. -/
def padZeros (s : String) (width : ℕ) : String :=
  String.join (List.replicate (width - s.length) "0") ++ s

/-- JS `String(q)` for a nonnegative number: shortest plain decimal form without
trailing zeros. Rationals without a short terminating decimal expansion (which cannot
arise from the doubles this code manipulates) fall back to a fraction rendering. -/
def jsNumToStringNN (q : ℚ) : String :=
  match decExp q with
  | some 0 => toString q.num
  | some e =>
    toString ((q * 10 ^ e).num.toNat / 10 ^ e) ++ "." ++
      padZeros (toString ((q * 10 ^ e).num.toNat % 10 ^ e)) e
  | none => toString q.num ++ "/" ++ toString q.den

/-- JS `String(q)` on an arbitrary rational: sign followed by the shortest plain
decimal form. -/
def jsNumToString (q : ℚ) : String :=
  if q < 0 then "-" ++ jsNumToStringNN (-q) else jsNumToStringNN q

/-- Proleptic Gregorian date (year, month `1..12`, day `1..31`) of a count of days
since 1970-01-01, as ECMAScript `Date` computes it. -/
def civilFromDays (z : ℤ) : ℤ × ℕ × ℕ :=
  let z2 := z + 719468
  let era : ℤ := Int.fdiv z2 146097
  let doe : ℕ := (z2 - era * 146097).toNat
  let yoe : ℕ := (doe - doe / 1460 + doe / 36524 - doe / 146096) / 365
  let y : ℤ := (yoe : ℤ) + era * 400
  let doy : ℕ := doe - (365 * yoe + yoe / 4 - yoe / 100)
  let mp : ℕ := (5 * doy + 2) / 153
  let d : ℕ := doy - (153 * mp + 2) / 5 + 1
  let m : ℕ := if mp < 10 then mp + 3 else mp - 9
  (if m ≤ 2 then y + 1 else y, m, d)

/-- `Date.prototype.toISOString` of a timestamp in milliseconds since the epoch:
`YYYY-MM-DDTHH:mm:ss.sssZ` in UTC (expanded 6-digit years outside `0..9999`). -/
def toISOString (ms : ℤ) : String :=
  let day := Int.fdiv ms 86400000
  let msod := (ms - day * 86400000).toNat
  let ymd := civilFromDays day
  let y := ymd.1
  let ys :=
    if 0 ≤ y ∧ y ≤ 9999 then padZeros (toString y.toNat) 4
    else if y < 0 then "-" ++ padZeros (toString (-y).toNat) 6
    else "+" ++ padZeros (toString y.toNat) 6
  ys ++ "-" ++ padZeros (toString ymd.2.1) 2 ++ "-" ++ padZeros (toString ymd.2.2) 2 ++
    "T" ++ padZeros (toString (msod / 3600000)) 2 ++
    ":" ++ padZeros (toString (msod % 3600000 / 60000)) 2 ++
    ":" ++ padZeros (toString (msod % 60000 / 1000)) 2 ++
    "." ++ padZeros (toString (msod % 1000)) 3 ++ "Z"

/-- The unit table of `formatFileSize`. -/
def sizes : List String := ["Bytes", "KB", "MB", "GB", "TB"]

/-- `formatFileSize` from the source. `Math.floor(Math.log(bytes)/Math.log(1024))` is
modelled exactly as `Nat.log 1024 bytes`; an out-of-range unit index concatenates as
the string `"undefined"`, as JS renders an out-of-bounds array element. -/
def formatFileSize (bytes : ℕ) : String :=
  if bytes = 0 then "0 Bytes"
  else
    jsNumToString (roundTo2 ((bytes : ℚ) / 1024 ^ Nat.log 1024 bytes)) ++ " " ++
      ((sizes.get? (Nat.log 1024 bytes)).getD "undefined")

/-- The recognized EXIF tags of the decoded image, following
`types/exif-parser.d.ts`; `none` is an undefined key. Keys other than these are never
read by the node and are not modelled: a tag dictionary with no recognized keys is the
all-`none` record. -/
structure Tags where
  Make : Option String := none
  Model : Option String := none
  Software : Option String := none
  LensModel : Option String := none
  LensMake : Option String := none
  FocalLength : Option ℚ := none
  ExposureTime : Option ℚ := none
  FNumber : Option ℚ := none
  ISO : Option ℚ := none
  ExposureMode : Option ℚ := none
  Flash : Option ℚ := none
  GPSLatitude : Option ℚ := none
  GPSLongitude : Option ℚ := none
  GPSAltitude : Option ℚ := none
  GPSLatitudeRef : Option String := none
  GPSLongitudeRef : Option String := none
  DateTime : Option ℚ := none
  DateTimeOriginal : Option ℚ := none
  DateTimeDigitized : Option ℚ := none

/-- A tag dictionary containing none of the recognized keys. -/
def emptyTags : Tags := {}

/-- Image dimensions reported by the decoder. -/
structure ImageSize where
  width : ℚ
  height : ℚ

/-- The decoder's output shape `{imageSize?, tags?}` (both keys optional). -/
structure ExifData where
  imageSize : Option ImageSize := none
  tags : Option Tags := none

/-- An optional property of the raw passthrough object. -/
def optEntry {α : Type} (key : String) (f : α → JVal) (v : Option α) :
    List (String × JVal) :=
  match v with
  | some a => [(key, f a)]
  | none => []

/-- The decoded tags dictionary as a JSON value (declaration order of the typing). -/
def tagsJVal (t : Tags) : JVal :=
  JVal.obj
    (optEntry "Make" JVal.str t.Make ++ optEntry "Model" JVal.str t.Model ++
      optEntry "Software" JVal.str t.Software ++
      optEntry "LensModel" JVal.str t.LensModel ++
      optEntry "LensMake" JVal.str t.LensMake ++
      optEntry "FocalLength" JVal.num t.FocalLength ++
      optEntry "ExposureTime" JVal.num t.ExposureTime ++
      optEntry "FNumber" JVal.num t.FNumber ++
      optEntry "ISO" JVal.num t.ISO ++
      optEntry "ExposureMode" JVal.num t.ExposureMode ++
      optEntry "Flash" JVal.num t.Flash ++
      optEntry "GPSLatitude" JVal.num t.GPSLatitude ++
      optEntry "GPSLongitude" JVal.num t.GPSLongitude ++
      optEntry "GPSAltitude" JVal.num t.GPSAltitude ++
      optEntry "GPSLatitudeRef" JVal.str t.GPSLatitudeRef ++
      optEntry "GPSLongitudeRef" JVal.str t.GPSLongitudeRef ++
      optEntry "DateTime" JVal.num t.DateTime ++
      optEntry "DateTimeOriginal" JVal.num t.DateTimeOriginal ++
      optEntry "DateTimeDigitized" JVal.num t.DateTimeDigitized)

/-- The full decoded structure stored unfiltered under `raw`. -/
def rawJVal (ed : ExifData) : JVal :=
  JVal.obj
    (optEntry "imageSize"
        (fun sz => JVal.obj [("width", JVal.num sz.width), ("height", JVal.num sz.height)])
        ed.imageSize ++
      optEntry "tags" tagsJVal ed.tags)

/-- One conditional assignment `if (tags.K) group.key = f value` on a string tag
(truthiness-gated, as in the source). -/
def strTagField (key : String) (f : String → JVal) (v : Option String) :
    List (String × JVal) :=
  match v with
  | some s => if s = "" then [] else [(key, f s)]
  | none => []

/-- One conditional assignment `if (tags.K) group.key = f value` on a numeric tag
(truthiness-gated, as in the source). -/
def numTagField (key : String) (f : ℚ → JVal) (v : Option ℚ) : List (String × JVal) :=
  match v with
  | some q => if q = 0 then [] else [(key, f q)]
  | none => []

/-- One conditional assignment `if (tags.K !== undefined) group.key = f value` on a
numeric tag (definedness-gated, as the source's ExposureMode and Flash checks). -/
def definedNumField (key : String) (f : ℚ → JVal) (v : Option ℚ) :
    List (String × JVal) :=
  match v with
  | some q => [(key, f q)]
  | none => []

/-- The camera group (source lines 211-213). -/
def cameraFields (t : Tags) : List (String × JVal) :=
  strTagField "make" JVal.str t.Make ++ strTagField "model" JVal.str t.Model ++
    strTagField "software" JVal.str t.Software

/-- The lens group (source lines 216-218). -/
def lensFields (t : Tags) : List (String × JVal) :=
  strTagField "model" JVal.str t.LensModel ++ strTagField "make" JVal.str t.LensMake ++
    numTagField "focalLength" (fun q => JVal.str (jsNumToString q ++ "mm")) t.FocalLength

/-- The lookup table of exposure mode names (source line 228). -/
def exposureModes : List String := ["Auto", "Manual", "Auto bracket"]

/-- The spec's description of the mode lookup, for comparison with the source's array
indexing: the table maps 0, 1, 2 to names and every other numeric code to
`"Unknown"`. -/
def specExposureMode (q : ℚ) : String :=
  if q = 0 then "Auto"
  else if q = 1 then "Manual"
  else if q = 2 then "Auto bracket"
  else "Unknown"

/-- The JS expression `xs[q] || dflt` for a numeric index `q`: the element when `q` is
an in-bounds nonnegative integer index and the element is truthy, else `dflt`. -/
def jsIndexOr (xs : List String) (q : ℚ) (dflt : String) : String :=
  match (if q.den = 1 ∧ 0 ≤ q.num then xs.get? q.num.toNat else none) with
  | some s => if s = "" then dflt else s
  | none => dflt

/-- The formatted shutter speed (source line 223). -/
def shutterSpeedStr (e : ℚ) : String :=
  if e < 1 then "1/" ++ toString (jsRound (1 / e)) else jsNumToString e ++ "s"

/-- The exposure group (source lines 221-233). -/
def exposureFields (t : Tags) : List (String × JVal) :=
  numTagField "shutterSpeed" (fun e => JVal.str (shutterSpeedStr e)) t.ExposureTime ++
    numTagField "aperture" (fun q => JVal.str ("f/" ++ jsNumToString q)) t.FNumber ++
    numTagField "iso" JVal.num t.ISO ++
    definedNumField "mode" (fun m => JVal.str (jsIndexOr exposureModes m "Unknown"))
      t.ExposureMode ++
    definedNumField "flash"
      (fun q => JVal.str (if q = 1 then "Fired" else "Did not fire")) t.Flash

/-- One conditional decimal-coordinate assignment (source lines 246-255): emitted only
when both the stored magnitude and its stored reference are truthy (the stored fields
are already `|| null`-coerced, so truthy is the same as non-null); the negated
absolute value when the reference equals `sign`, the absolute value otherwise. -/
def decimalField (key : String) (sign : String) (mag : Option ℚ) (ref : Option String) :
    List (String × JVal) :=
  match mag, ref with
  | some m, some r => [(key, JVal.num (if r = sign then -|m| else |m|))]
  | _, _ => []

/-- The GPS group when it is emitted (source lines 237-255): the five verbatim fields
(each coerced to null when falsy by `|| null`), then the derived decimal
coordinates. -/
def gpsFields (t : Tags) : List (String × JVal) :=
  [("latitude", jnum (numOrNull t.GPSLatitude)),
    ("longitude", jnum (numOrNull t.GPSLongitude)),
    ("altitude", jnum (numOrNull t.GPSAltitude)),
    ("latitudeRef", jstr (strOrNull t.GPSLatitudeRef)),
    ("longitudeRef", jstr (strOrNull t.GPSLongitudeRef))] ++
    decimalField "latitudeDecimal" "S" (numOrNull t.GPSLatitude)
      (strOrNull t.GPSLatitudeRef) ++
    decimalField "longitudeDecimal" "W" (numOrNull t.GPSLongitude)
      (strOrNull t.GPSLongitudeRef)

/-- The first truthy value of `tags.DateTimeOriginal || tags.DateTime ||
tags.DateTimeDigitized` (falling through to the last operand as JS `||` does). -/
def pickDateTime (t : Tags) : Option ℚ :=
  if truthyNum t.DateTimeOriginal then t.DateTimeOriginal
  else if truthyNum t.DateTime then t.DateTime
  else t.DateTimeDigitized

/-- The timestamp field (source lines 259-272). The guard tests truthiness of any of
the three date tags; inside, the converted branch builds `{original, iso, formatted}`
from `new Date(dateTime * 1000)`. The inner `none` arm is unreachable: the guard
forces the picked value to be defined and nonzero. -/
def timestampVal (t : Tags) (convertTimestamps : Bool) (toLocaleString : ℤ → String) :
    JVal :=
  if truthyNum t.DateTime || truthyNum t.DateTimeOriginal ||
      truthyNum t.DateTimeDigitized then
    if convertTimestamps && truthyNum (pickDateTime t) then
      match pickDateTime t with
      | some d =>
        JVal.obj
          [("original", JVal.num d),
            ("iso", JVal.str (toISOString (jsTrunc (d * 1000)))),
            ("formatted", JVal.str (toLocaleString (jsTrunc (d * 1000))))]
      | none => JVal.null
    else jnum (pickDateTime t)
  else JVal.null

/-- Does a JSON value answer `typeof v === 'object' && v !== null && !Array.isArray(v)
&& Object.keys(v).length === 0`? Only the empty object does. -/
def isEmptyObj : JVal → Bool
  | JVal.obj [] => true
  | _ => false

/-- The cleanup pass (source lines 276-283): delete every top-level property whose
value is an empty plain object. -/
def cleanup (fields : List (String × JVal)) : List (String × JVal) :=
  fields.filter (fun kv => !(isEmptyObj kv.2))

/-- The `fileInfo` value (source lines 184-188). -/
def fileInfoVal (fileName : String) (fileSize : ℕ) : JVal :=
  JVal.obj
    [("fileName", JVal.str fileName), ("fileSizeBytes", JVal.num (fileSize : ℚ)),
      ("fileSizeFormatted", JVal.str (formatFileSize fileSize))]

/-- The `imageSize` value: `null` initially, overwritten when `includeImageSize` is set
and the decoder reported dimensions (source lines 189, 199-204). -/
def imageSizeVal (ed : ExifData) (includeImageSize : Bool) : JVal :=
  if includeImageSize then
    match ed.imageSize with
    | some sz => JVal.obj [("width", JVal.num sz.width), ("height", JVal.num sz.height)]
    | none => JVal.null
  else JVal.null

/-- The `camera` value before cleanup: populated only when the decoder reported a tags
object at all (source lines 190, 207-213). -/
def cameraVal (ed : ExifData) : JVal :=
  match ed.tags with
  | some t => JVal.obj (cameraFields t)
  | none => JVal.obj []

/-- The `lens` value before cleanup (source lines 191, 216-218). -/
def lensVal (ed : ExifData) : JVal :=
  match ed.tags with
  | some t => JVal.obj (lensFields t)
  | none => JVal.obj []

/-- The `exposure` value before cleanup (source lines 192, 221-233). -/
def exposureVal (ed : ExifData) : JVal :=
  match ed.tags with
  | some t => JVal.obj (exposureFields t)
  | none => JVal.obj []

/-- The `gps` value: `null` unless `includeGps` is set and one of the coordinate tags
is truthy (source lines 193, 236-256). -/
def gpsVal (ed : ExifData) (includeGps : Bool) : JVal :=
  match ed.tags with
  | some t =>
    if includeGps && (truthyNum t.GPSLatitude || truthyNum t.GPSLongitude) then
      JVal.obj (gpsFields t)
    else JVal.null
  | none => JVal.null

/-- The `timestamp` value (source lines 194, 259-272). -/
def timestampField (ed : ExifData) (convertTimestamps : Bool)
    (toLocaleString : ℤ → String) : JVal :=
  match ed.tags with
  | some t => timestampVal t convertTimestamps toLocaleString
  | none => JVal.null

/-- The `structuredExif` object assembled by `execute` (source lines 183-283),
after the cleanup pass. -/
def buildStructuredExif (ed : ExifData) (fileName : String) (fileSize : ℕ)
    (includeGps includeImageSize convertTimestamps : Bool)
    (toLocaleString : ℤ → String) : List (String × JVal) :=
  cleanup
    [("fileInfo", fileInfoVal fileName fileSize),
      ("imageSize", imageSizeVal ed includeImageSize),
      ("camera", cameraVal ed),
      ("lens", lensVal ed),
      ("exposure", exposureVal ed),
      ("gps", gpsVal ed includeGps),
      ("timestamp", timestampField ed convertTimestamps toLocaleString),
      ("raw", rawJVal ed)]

/-- One entry of an item's binary map (`fileName?` and base64 `data`). -/
structure BinaryFile where
  fileName : Option String := none
  data : String := ""

/-- An image byte buffer; only its length is observable to this code besides being
handed to the parser. -/
structure Buffer where
  length : ℕ

/-- Node parameters as read per item through `getNodeParameter`. -/
structure Params where
  inputSource : String := "binaryData"
  binaryProperty : String := "data"
  imageUrl : String := ""
  outputProperty : String := "exif"
  includeGps : Bool := true
  includeImageSize : Bool := true
  convertTimestamps : Bool := true

/-- Collaborator outcomes for one item: the binary-data helper, the HTTP fetch, the
EXIF parser, and the host's locale renderer backing `toLocaleString`. -/
structure ItemEnv where
  binaryBuffer : Except String Buffer
  httpResponse : Except String Buffer
  parse : Buffer → Except String ExifData
  toLocaleString : ℤ → String

/-- One input item with its per-item parameters and collaborator outcomes. -/
structure ItemCtx where
  json : List (String × JVal)
  binary : Option (List (String × BinaryFile)) := none
  params : Params
  env : ItemEnv

/-- One output item; `binary = none` models an item with no binary property at all. -/
structure OutItem where
  json : List (String × JVal)
  binary : Option (List (String × BinaryFile)) := none
  pairedItem : Option ℕ := none

/-- The expression `items[i].binary?.[prop]`. -/
def lookupBinary (b : Option (List (String × BinaryFile))) (prop : String) :
    Option BinaryFile :=
  b.bind (fun l => (l.find? (fun kv => kv.1 == prop)).map (fun kv => kv.2))

/-- The JS expression `a || b` on a possibly-undefined string. -/
def strOrElse (a : Option String) (b : String) : String :=
  match a with
  | some s => if s = "" then b else s
  | none => b

/-- The file name computed on the success path (source lines 170-180). -/
def fileNameOf (c : ItemCtx) : String :=
  if c.params.inputSource = "binaryData" then
    match lookupBinary c.binary c.params.binaryProperty with
    | some bd => strOrElse bd.fileName (strOrElse (some bd.data) "unknown")
    | none => "unknown"
  else
    strOrElse (some ((c.params.imageUrl.splitOn "/").getLastD "")) "downloaded_image"

/-- Processing of one item up to the structured EXIF object (source lines 119-283);
an `Except.error` carries the message of the error thrown on that path. -/
def processItem (c : ItemCtx) : Except String (List (String × JVal)) := do
  let buffer ←
    if c.params.inputSource = "binaryData" then
      match lookupBinary c.binary c.params.binaryProperty with
      | none =>
        Except.error
          ("No binary data found in property \"" ++ c.params.binaryProperty ++ "\"")
      | some _ => c.env.binaryBuffer
    else if c.params.imageUrl = "" then
      Except.error "Image URL is required when using URL input source"
    else c.env.httpResponse
  let ed ← c.env.parse buffer
  Except.ok
    (buildStructuredExif ed (fileNameOf c) buffer.length c.params.includeGps
      c.params.includeImageSize c.params.convertTimestamps c.env.toLocaleString)

/-- The output item pushed on the success path (source lines 286-294): the original
json fields with the structured object merged under the output property, and no
binary property. -/
def successItem (c : ItemCtx) (s : List (String × JVal)) : OutItem :=
  { json := setKey c.json c.params.outputProperty (JVal.obj s) }

/-- The output item pushed on the continue-on-fail path (source lines 299-306): the
original json fields plus the error message, the original binary payload, and the
item index as pairedItem. -/
def failureItem (c : ItemCtx) (idx : ℕ) (msg : String) : OutItem :=
  { json := setKey c.json "error" (JVal.str msg), binary := c.binary,
    pairedItem := some idx }

/-- The item loop of `execute` starting at item index `idx` (source lines 117-317):
on failure it either appends the degraded item and continues, or aborts the whole
batch with the failing index attached. -/
def executeFrom (continueOnFail : Bool) : ℕ → List ItemCtx → Except (ℕ × String) (List OutItem)
  | _, [] => Except.ok []
  | idx, c :: rest =>
    match processItem c with
    | Except.ok s =>
      (executeFrom continueOnFail (idx + 1) rest).map (fun outs => successItem c s :: outs)
    | Except.error msg =>
      if continueOnFail then
        (executeFrom continueOnFail (idx + 1) rest).map
          (fun outs => failureItem c idx msg :: outs)
      else Except.error (idx, msg)

/-- The `execute` method over the whole batch of input items. -/
def execute (continueOnFail : Bool) (items : List ItemCtx) :
    Except (ℕ × String) (List OutItem) :=
  executeFrom continueOnFail 0 items

/-- The per-item outcome of the loop, starting at index `idx`: the success item or, in
continue-on-fail mode, the degraded error item. -/
def mapOut : ℕ → List ItemCtx → List OutItem
  | _, [] => []
  | idx, c :: rest =>
    (match processItem c with
      | Except.ok s => successItem c s
      | Except.error m => failureItem c idx m) :: mapOut (idx + 1) rest

/-! ### Access lemmas for association-list objects and the cleanup pass -/

theorem getKey_nil (k : String) : getKey [] k = none := rfl

theorem getKey_cons (k k' : String) (v : JVal) (rest : List (String × JVal)) :
    getKey ((k', v) :: rest) k = if k' = k then some v else getKey rest k := by
  by_cases h : k' = k <;> simp [getKey, h]

theorem getKey_cleanup_cons_ne {k k' : String} {v : JVal} {rest : List (String × JVal)}
    (h : k' ≠ k) :
    getKey (cleanup ((k', v) :: rest)) k = getKey (cleanup rest) k := by
  rw [cleanup, List.filter_cons]
  split
  · rw [getKey_cons, if_neg h]; rfl
  · rfl

theorem getKey_cleanup_cons_eq {k : String} {v : JVal} {rest : List (String × JVal)} :
    getKey (cleanup ((k, v) :: rest)) k =
      if isEmptyObj v then getKey (cleanup rest) k else some v := by
  rw [cleanup, List.filter_cons]
  by_cases h : isEmptyObj v
  · simp only [h, Bool.not_true, if_neg (by simp : ¬False), if_pos]
    rfl
  · simp only [h, Bool.not_false, if_pos trivial]
    rw [getKey_cons, if_pos rfl]
    simp [h]

theorem getKey_cleanup_nil (k : String) : getKey (cleanup []) k = none := rfl

theorem getKey_append (xs ys : List (String × JVal)) (k : String) :
    getKey (xs ++ ys) k = (getKey xs k).or (getKey ys k) := by
  unfold getKey
  rw [List.find?_append]
  cases h : xs.find? (fun kv => kv.1 == k) <;> simp [h]

/-! ### Emptiness of the top-level values -/

theorem isEmptyObj_fileInfoVal (fn : String) (fs : ℕ) :
    isEmptyObj (fileInfoVal fn fs) = false := rfl

theorem isEmptyObj_imageSizeVal (ed : ExifData) (i : Bool) :
    isEmptyObj (imageSizeVal ed i) = false := by
  unfold imageSizeVal
  cases i
  · rfl
  · cases ed.imageSize <;> rfl

theorem isEmptyObj_gpsVal (ed : ExifData) (g : Bool) :
    isEmptyObj (gpsVal ed g) = false := by
  obtain ⟨is, tg⟩ := ed
  cases tg with
  | none => rfl
  | some t =>
    by_cases h : (g && (truthyNum t.GPSLatitude || truthyNum t.GPSLongitude)) = true
    · simp only [gpsVal, if_pos h]
      rfl
    · simp only [gpsVal, if_neg h]
      rfl

theorem isEmptyObj_timestampVal (t : Tags) (c : Bool) (loc : ℤ → String) :
    isEmptyObj (timestampVal t c loc) = false := by
  unfold timestampVal
  split
  · split
    · cases h : pickDateTime t <;> simp [h, isEmptyObj]
    · cases h : pickDateTime t <;> simp [h, jnum, isEmptyObj]
  · rfl

theorem isEmptyObj_timestampField (ed : ExifData) (c : Bool) (loc : ℤ → String) :
    isEmptyObj (timestampField ed c loc) = false := by
  unfold timestampField
  cases ed.tags with
  | none => rfl
  | some t => exact isEmptyObj_timestampVal t c loc

/-! ### Access to the top-level keys of the structured object -/

theorem build_fileInfo (ed : ExifData) (fn : String) (fs : ℕ) (g i c : Bool)
    (loc : ℤ → String) :
    getKey (buildStructuredExif ed fn fs g i c loc) "fileInfo" = some (fileInfoVal fn fs) := by
  rw [buildStructuredExif, getKey_cleanup_cons_eq, isEmptyObj_fileInfoVal]
  simp

theorem build_imageSize (ed : ExifData) (fn : String) (fs : ℕ) (g i c : Bool)
    (loc : ℤ → String) :
    getKey (buildStructuredExif ed fn fs g i c loc) "imageSize" =
      some (imageSizeVal ed i) := by
  rw [buildStructuredExif, getKey_cleanup_cons_ne (by decide), getKey_cleanup_cons_eq,
    isEmptyObj_imageSizeVal]
  simp

theorem build_camera (ed : ExifData) (fn : String) (fs : ℕ) (g i c : Bool)
    (loc : ℤ → String) :
    getKey (buildStructuredExif ed fn fs g i c loc) "camera" =
      if isEmptyObj (cameraVal ed) then none else some (cameraVal ed) := by
  rw [buildStructuredExif, getKey_cleanup_cons_ne (by decide),
    getKey_cleanup_cons_ne (by decide), getKey_cleanup_cons_eq,
    getKey_cleanup_cons_ne (by decide), getKey_cleanup_cons_ne (by decide),
    getKey_cleanup_cons_ne (by decide), getKey_cleanup_cons_ne (by decide),
    getKey_cleanup_cons_ne (by decide), getKey_cleanup_nil]

theorem build_lens (ed : ExifData) (fn : String) (fs : ℕ) (g i c : Bool)
    (loc : ℤ → String) :
    getKey (buildStructuredExif ed fn fs g i c loc) "lens" =
      if isEmptyObj (lensVal ed) then none else some (lensVal ed) := by
  rw [buildStructuredExif, getKey_cleanup_cons_ne (by decide),
    getKey_cleanup_cons_ne (by decide), getKey_cleanup_cons_ne (by decide),
    getKey_cleanup_cons_eq, getKey_cleanup_cons_ne (by decide),
    getKey_cleanup_cons_ne (by decide), getKey_cleanup_cons_ne (by decide),
    getKey_cleanup_cons_ne (by decide), getKey_cleanup_nil]

theorem build_exposure (ed : ExifData) (fn : String) (fs : ℕ) (g i c : Bool)
    (loc : ℤ → String) :
    getKey (buildStructuredExif ed fn fs g i c loc) "exposure" =
      if isEmptyObj (exposureVal ed) then none else some (exposureVal ed) := by
  rw [buildStructuredExif, getKey_cleanup_cons_ne (by decide),
    getKey_cleanup_cons_ne (by decide), getKey_cleanup_cons_ne (by decide),
    getKey_cleanup_cons_ne (by decide), getKey_cleanup_cons_eq,
    getKey_cleanup_cons_ne (by decide), getKey_cleanup_cons_ne (by decide),
    getKey_cleanup_cons_ne (by decide), getKey_cleanup_nil]

theorem build_gps (ed : ExifData) (fn : String) (fs : ℕ) (g i c : Bool)
    (loc : ℤ → String) :
    getKey (buildStructuredExif ed fn fs g i c loc) "gps" = some (gpsVal ed g) := by
  rw [buildStructuredExif, getKey_cleanup_cons_ne (by decide),
    getKey_cleanup_cons_ne (by decide), getKey_cleanup_cons_ne (by decide),
    getKey_cleanup_cons_ne (by decide), getKey_cleanup_cons_ne (by decide),
    getKey_cleanup_cons_eq, isEmptyObj_gpsVal]
  simp

theorem build_timestamp (ed : ExifData) (fn : String) (fs : ℕ) (g i c : Bool)
    (loc : ℤ → String) :
    getKey (buildStructuredExif ed fn fs g i c loc) "timestamp" =
      some (timestampField ed c loc) := by
  rw [buildStructuredExif, getKey_cleanup_cons_ne (by decide),
    getKey_cleanup_cons_ne (by decide), getKey_cleanup_cons_ne (by decide),
    getKey_cleanup_cons_ne (by decide), getKey_cleanup_cons_ne (by decide),
    getKey_cleanup_cons_ne (by decide), getKey_cleanup_cons_eq,
    isEmptyObj_timestampField]
  simp

theorem build_raw (ed : ExifData) (fn : String) (fs : ℕ) (g i c : Bool)
    (loc : ℤ → String) :
    getKey (buildStructuredExif ed fn fs g i c loc) "raw" =
      if isEmptyObj (rawJVal ed) then none else some (rawJVal ed) := by
  rw [buildStructuredExif, getKey_cleanup_cons_ne (by decide),
    getKey_cleanup_cons_ne (by decide), getKey_cleanup_cons_ne (by decide),
    getKey_cleanup_cons_ne (by decide), getKey_cleanup_cons_ne (by decide),
    getKey_cleanup_cons_ne (by decide), getKey_cleanup_cons_ne (by decide),
    getKey_cleanup_cons_eq, getKey_cleanup_nil]

theorem isEmptyObj_rawJVal (ed : ExifData) :
    isEmptyObj (rawJVal ed) = (ed.imageSize.isNone && ed.tags.isNone) := by
  obtain ⟨is, tg⟩ := ed
  cases is <;> cases tg <;> rfl

/-! ### Access to the individual fields of the groups -/

theorem getKey_strTagField_ne {key k : String} (f : String → JVal) (v : Option String)
    (h : key ≠ k) : getKey (strTagField key f v) k = none := by
  rcases v with _ | s
  · rfl
  · by_cases hs : s = "" <;> simp [strTagField, hs, getKey_cons, h, getKey_nil]

theorem getKey_strTagField_eq (key : String) (f : String → JVal) (v : Option String) :
    getKey (strTagField key f v) key =
      match v with
      | some s => if s = "" then none else some (f s)
      | none => none := by
  rcases v with _ | s
  · rfl
  · by_cases hs : s = "" <;> simp [strTagField, hs, getKey_cons, getKey_nil]

theorem getKey_numTagField_ne {key k : String} (f : ℚ → JVal) (v : Option ℚ)
    (h : key ≠ k) : getKey (numTagField key f v) k = none := by
  rcases v with _ | q
  · rfl
  · by_cases hq : q = 0 <;> simp [numTagField, hq, getKey_cons, h, getKey_nil]

theorem getKey_numTagField_eq (key : String) (f : ℚ → JVal) (v : Option ℚ) :
    getKey (numTagField key f v) key =
      match v with
      | some q => if q = 0 then none else some (f q)
      | none => none := by
  rcases v with _ | q
  · rfl
  · by_cases hq : q = 0 <;> simp [numTagField, hq, getKey_cons, getKey_nil]

theorem getKey_definedNumField_ne {key k : String} (f : ℚ → JVal) (v : Option ℚ)
    (h : key ≠ k) : getKey (definedNumField key f v) k = none := by
  rcases v with _ | q
  · rfl
  · simp [definedNumField, getKey_cons, h, getKey_nil]

theorem getKey_definedNumField_eq (key : String) (f : ℚ → JVal) (v : Option ℚ) :
    getKey (definedNumField key f v) key = v.map f := by
  rcases v with _ | q
  · rfl
  · simp [definedNumField, getKey_cons]

theorem getKey_decimalField_ne {key k : String} (sign : String) (mag : Option ℚ)
    (ref : Option String) (h : key ≠ k) :
    getKey (decimalField key sign mag ref) k = none := by
  rcases mag with _ | m <;> rcases ref with _ | r <;>
    simp [decimalField, getKey_cons, h, getKey_nil]

theorem getKey_decimalField_eq (key sign : String) (mag : Option ℚ)
    (ref : Option String) :
    getKey (decimalField key sign mag ref) key =
      match mag, ref with
      | some m, some r => some (JVal.num (if r = sign then -|m| else |m|))
      | _, _ => none := by
  rcases mag with _ | m <;> rcases ref with _ | r <;>
    simp [decimalField, getKey_cons, getKey_nil]

theorem exposure_shutterSpeed (t : Tags) :
    getKey (exposureFields t) "shutterSpeed" =
      match t.ExposureTime with
      | some e => if e = 0 then none else some (JVal.str (shutterSpeedStr e))
      | none => none := by
  unfold exposureFields
  rw [getKey_append, getKey_append, getKey_append, getKey_append,
    getKey_numTagField_eq,
    getKey_numTagField_ne _ _ (by decide), getKey_numTagField_ne _ _ (by decide),
    getKey_definedNumField_ne _ _ (by decide), getKey_definedNumField_ne _ _ (by decide)]
  rcases t.ExposureTime with _ | e
  · rfl
  · by_cases he : e = 0 <;> simp [he]

theorem exposure_mode (t : Tags) :
    getKey (exposureFields t) "mode" =
      t.ExposureMode.map (fun m => JVal.str (jsIndexOr exposureModes m "Unknown")) := by
  unfold exposureFields
  rw [getKey_append, getKey_append, getKey_append, getKey_append,
    getKey_numTagField_ne _ _ (by decide), getKey_numTagField_ne _ _ (by decide),
    getKey_numTagField_ne _ _ (by decide), getKey_definedNumField_eq,
    getKey_definedNumField_ne _ _ (by decide)]
  rcases t.ExposureMode with _ | m <;> simp

theorem gps_latitude (t : Tags) :
    getKey (gpsFields t) "latitude" = some (jnum (numOrNull t.GPSLatitude)) := by
  unfold gpsFields
  rw [getKey_append, getKey_append, getKey_cons, if_pos rfl]
  rfl

theorem gps_longitude (t : Tags) :
    getKey (gpsFields t) "longitude" = some (jnum (numOrNull t.GPSLongitude)) := by
  unfold gpsFields
  rw [getKey_append, getKey_append, getKey_cons, if_neg (by decide), getKey_cons,
    if_pos rfl]
  rfl

theorem gps_altitude (t : Tags) :
    getKey (gpsFields t) "altitude" = some (jnum (numOrNull t.GPSAltitude)) := by
  unfold gpsFields
  rw [getKey_append, getKey_append, getKey_cons, if_neg (by decide), getKey_cons,
    if_neg (by decide), getKey_cons, if_pos rfl]
  rfl

theorem gps_latitudeRef (t : Tags) :
    getKey (gpsFields t) "latitudeRef" = some (jstr (strOrNull t.GPSLatitudeRef)) := by
  unfold gpsFields
  rw [getKey_append, getKey_append, getKey_cons, if_neg (by decide), getKey_cons,
    if_neg (by decide), getKey_cons, if_neg (by decide), getKey_cons, if_pos rfl]
  rfl

theorem gps_longitudeRef (t : Tags) :
    getKey (gpsFields t) "longitudeRef" = some (jstr (strOrNull t.GPSLongitudeRef)) := by
  unfold gpsFields
  rw [getKey_append, getKey_append, getKey_cons, if_neg (by decide), getKey_cons,
    if_neg (by decide), getKey_cons, if_neg (by decide), getKey_cons, if_neg (by decide),
    getKey_cons, if_pos rfl]
  rfl

theorem gps_latitudeDecimal (t : Tags) :
    getKey (gpsFields t) "latitudeDecimal" =
      match numOrNull t.GPSLatitude, strOrNull t.GPSLatitudeRef with
      | some m, some r => some (JVal.num (if r = "S" then -|m| else |m|))
      | _, _ => none := by
  unfold gpsFields
  rw [getKey_append, getKey_append, getKey_cons, if_neg (by decide), getKey_cons,
    if_neg (by decide), getKey_cons, if_neg (by decide), getKey_cons, if_neg (by decide),
    getKey_cons, if_neg (by decide), getKey_nil, getKey_decimalField_eq,
    getKey_decimalField_ne _ _ _ (by decide)]
  rcases numOrNull t.GPSLatitude with _ | m <;> rcases strOrNull t.GPSLatitudeRef with _ | r <;>
    simp

theorem gps_longitudeDecimal (t : Tags) :
    getKey (gpsFields t) "longitudeDecimal" =
      match numOrNull t.GPSLongitude, strOrNull t.GPSLongitudeRef with
      | some m, some r => some (JVal.num (if r = "W" then -|m| else |m|))
      | _, _ => none := by
  unfold gpsFields
  rw [getKey_append, getKey_append, getKey_cons, if_neg (by decide), getKey_cons,
    if_neg (by decide), getKey_cons, if_neg (by decide), getKey_cons, if_neg (by decide),
    getKey_cons, if_neg (by decide), getKey_nil, getKey_decimalField_eq,
    getKey_decimalField_ne _ _ _ (by decide)]
  rcases numOrNull t.GPSLongitude with _ | m <;> rcases strOrNull t.GPSLongitudeRef with _ | r <;>
    simp

/-! ### Behaviour of the item loop -/

theorem exceptMap_ok {ε α β : Type} (f : α → β) (x : α) :
    Except.map f (Except.ok x : Except ε α) = Except.ok (f x) := rfl

theorem exceptMap_error {ε α β : Type} (f : α → β) (e : ε) :
    Except.map f (Except.error e : Except ε α) = Except.error e := rfl

theorem executeFrom_continue (idx : ℕ) (ctxs : List ItemCtx) :
    executeFrom true idx ctxs = Except.ok (mapOut idx ctxs) := by
  induction ctxs generalizing idx with
  | nil => rfl
  | cons c rest ih =>
    simp only [executeFrom, mapOut]
    cases h : processItem c <;> simp [h, ih, exceptMap_ok]

theorem executeFrom_ok_eq {cof : Bool} {idx : ℕ} {ctxs : List ItemCtx}
    {outs : List OutItem} (h : executeFrom cof idx ctxs = Except.ok outs) :
    outs = mapOut idx ctxs := by
  induction ctxs generalizing idx outs with
  | nil =>
    simp only [executeFrom] at h
    cases h
    rfl
  | cons c rest ih =>
    cases hp : processItem c with
    | ok s =>
      cases hrec : executeFrom cof (idx + 1) rest with
      | ok outs' =>
        simp only [executeFrom, hp, hrec, exceptMap_ok] at h
        cases h
        simp [mapOut, hp, ih hrec]
      | error e =>
        simp only [executeFrom, hp, hrec, exceptMap_error] at h
        exact absurd h (by simp)
    | error m =>
      cases cof with
      | false =>
        simp only [executeFrom, hp] at h
        simp at h
      | true =>
        cases hrec : executeFrom true (idx + 1) rest with
        | ok outs' =>
          simp only [executeFrom, hp, hrec, exceptMap_ok, eq_self_iff_true, if_true] at h
          cases h
          simp [mapOut, hp, ih hrec]
        | error e =>
          simp only [executeFrom, hp, hrec, exceptMap_error, eq_self_iff_true,
            if_true] at h
          exact absurd h (by simp)

theorem mapOut_length (idx : ℕ) (ctxs : List ItemCtx) :
    (mapOut idx ctxs).length = ctxs.length := by
  induction ctxs generalizing idx with
  | nil => rfl
  | cons c rest ih => simp [mapOut, ih]

theorem mapOut_get? (idx i : ℕ) (ctxs : List ItemCtx) :
    (mapOut idx ctxs).get? i =
      (ctxs.get? i).map (fun c =>
        match processItem c with
        | Except.ok s => successItem c s
        | Except.error m => failureItem c (idx + i) m) := by
  induction ctxs generalizing idx i with
  | nil => simp [mapOut]
  | cons c rest ih =>
    cases i with
    | zero => simp [mapOut]
    | succ n =>
      show (mapOut (idx + 1) rest).get? n = _
      rw [ih (idx + 1) n]
      have harith : idx + 1 + n = idx + (n + 1) := by omega
      rw [harith]
      rfl

theorem executeFrom_abort (idx : ℕ) (ctxs : List ItemCtx) (i : ℕ) (cx : ItemCtx)
    (m : String) (hi : ctxs.get? i = some cx) (hfail : processItem cx = Except.error m)
    (hok : ∀ j cj, j < i → ctxs.get? j = some cj → ∃ s, processItem cj = Except.ok s) :
    executeFrom false idx ctxs = Except.error (idx + i, m) := by
  induction ctxs generalizing idx i with
  | nil => simp at hi
  | cons c rest ih =>
    cases i with
    | zero =>
      rw [show (c :: rest).get? 0 = some c from rfl] at hi
      cases hi
      simp [executeFrom, hfail]
    | succ n =>
      obtain ⟨s, hs⟩ := hok 0 c (Nat.succ_pos n) rfl
      simp only [executeFrom, hs]
      have hrec := ih (idx + 1) n (by simpa using hi)
        (fun j cj hj hcj => hok (j + 1) cj (by omega) (by simpa using hcj))
      rw [hrec, exceptMap_error]
      have harith : idx + 1 + n = idx + (n + 1) := by omega
      rw [harith]

/-! ### Merging under a key, and the mode lookup table -/

theorem getKey_of_any_false (l : List (String × JVal)) (k : String)
    (h : l.any (fun kv => kv.1 == k) = false) : getKey l k = none := by
  induction l with
  | nil => rfl
  | cons a rest ih =>
    simp only [List.any_cons, Bool.or_eq_false_iff] at h
    rw [show a = (a.1, a.2) from rfl, getKey_cons]
    rw [if_neg (by simpa using h.1)]
    exact ih h.2

theorem getKey_mapReplace (l : List (String × JVal)) (k : String) (v : JVal)
    (h : l.any (fun kv => kv.1 == k) = true) :
    getKey (l.map (fun kv => if kv.1 == k then (kv.1, v) else kv)) k = some v := by
  induction l with
  | nil => simp at h
  | cons a rest ih =>
    obtain ⟨k1, v1⟩ := a
    by_cases hk : k1 = k
    · subst hk
      simp [getKey]
    · have h2 : rest.any (fun kv => kv.1 == k) = true := by
        simp only [List.any_cons, Bool.or_eq_true, beq_iff_eq] at h
        exact h.resolve_left hk
      simp only [List.map_cons, if_neg (by simp [hk] : ¬((k1, v1).1 == k) = true)]
      rw [getKey_cons, if_neg hk]
      exact ih h2

theorem getKey_setKey_same (l : List (String × JVal)) (k : String) (v : JVal) :
    getKey (setKey l k v) k = some v := by
  unfold setKey
  by_cases h : l.any (fun kv => kv.1 == k) = true
  · rw [if_pos h]
    exact getKey_mapReplace l k v h
  · rw [if_neg h, getKey_append,
      getKey_of_any_false l k (Bool.eq_false_iff.mpr h)]
    simp [getKey_cons]

theorem getKey_map_preserve (l : List (String × JVal)) (k : String) (v : JVal)
    (k' : String) (h : k ≠ k') :
    getKey (l.map (fun kv => if kv.1 == k then (kv.1, v) else kv)) k' = getKey l k' := by
  induction l with
  | nil => rfl
  | cons a rest ih =>
    obtain ⟨k1, v1⟩ := a
    by_cases hk : k1 = k
    · subst hk
      simp only [List.map_cons, if_pos (by simp : ((k1, v1).1 == k1) = true)]
      rw [getKey_cons, getKey_cons, if_neg h, if_neg h]
      exact ih
    · simp only [List.map_cons, if_neg (by simp [hk] : ¬((k1, v1).1 == k) = true)]
      rw [getKey_cons, getKey_cons]
      by_cases hk' : k1 = k'
      · rw [if_pos hk', if_pos hk']
      · rw [if_neg hk', if_neg hk']
        exact ih

theorem getKey_setKey_other (l : List (String × JVal)) (k : String) (v : JVal)
    (k' : String) (h : k ≠ k') : getKey (setKey l k v) k' = getKey l k' := by
  unfold setKey
  split
  · exact getKey_map_preserve l k v k' h
  · rw [getKey_append]
    rw [getKey_cons, if_neg h, getKey_nil]
    cases hx : getKey l k' <;> simp [hx]

theorem isEmptyObj_obj_of_getKey {l : List (String × JVal)} {k : String} {v : JVal}
    (h : getKey l k = some v) : isEmptyObj (JVal.obj l) = false := by
  cases l with
  | nil => simp [getKey] at h
  | cons a rest => rfl

theorem jsIndexOr_exposureModes (q : ℚ) :
    jsIndexOr exposureModes q "Unknown" = specExposureMode q := by
  by_cases h0 : q = 0
  · subst h0
    norm_num [jsIndexOr, exposureModes, specExposureMode]
    decide
  by_cases h1 : q = 1
  · subst h1
    norm_num [jsIndexOr, exposureModes, specExposureMode]
    decide
  by_cases h2 : q = 2
  · subst h2
    norm_num [jsIndexOr, exposureModes, specExposureMode]
    decide
  rw [specExposureMode, if_neg h0, if_neg h1, if_neg h2]
  by_cases hc : q.den = 1 ∧ 0 ≤ q.num
  · obtain ⟨hd, hn⟩ := hc
    have hq : q = ((q.num.toNat : ℤ) : ℚ) := by
      rw [Int.toNat_of_nonneg hn]
      conv_lhs => rw [← Rat.num_div_den q]
      rw [hd]
      simp
    have hge : 3 ≤ q.num.toNat := by
      by_contra hlt
      push_neg at hlt
      interval_cases q.num.toNat
      · exact h0 (by rw [hq]; norm_num)
      · exact h1 (by rw [hq]; norm_num)
      · exact h2 (by rw [hq]; norm_num)
    rw [jsIndexOr, if_pos ⟨hd, hn⟩,
      List.get?_eq_none.mpr (by simpa [exposureModes] using hge)]
  · rw [jsIndexOr, if_neg hc]

/-! ### Claims -/

/-- C2: for every tag dictionary in which ExposureMode is defined (including the value
0), the structured output's `exposure.mode` is the table lookup {0 "Auto", 1 "Manual",
2 "Auto bracket"}, and any other numeric code yields "Unknown"; in particular the mode
field is present (never treated as absent) whenever the tag is defined. -/
theorem c2_exposure_mode (ed : ExifData) (t : Tags) (q : ℚ) (fn : String) (fs : ℕ)
    (g i c : Bool) (loc : ℤ → String) (htags : ed.tags = some t)
    (hmode : t.ExposureMode = some q) :
    ∃ fields, getKey (buildStructuredExif ed fn fs g i c loc) "exposure" =
        some (JVal.obj fields) ∧
      getKey fields "mode" = some (JVal.str (specExposureMode q)) := by
  have hm : getKey (exposureFields t) "mode" =
      some (JVal.str (jsIndexOr exposureModes q "Unknown")) := by
    rw [exposure_mode, hmode]
    rfl
  refine ⟨exposureFields t, ?_, ?_⟩
  · rw [build_exposure]
    have hval : exposureVal ed = JVal.obj (exposureFields t) := by
      simp [exposureVal, htags]
    rw [hval, isEmptyObj_obj_of_getKey hm]
    simp
  · rw [hm, jsIndexOr_exposureModes]

/-- Witness for C2: ExposureMode 0 produces mode "Auto". -/
theorem c2_witness :
    ∃ fields,
      getKey (buildStructuredExif { tags := some { ExposureMode := some 0 } } "photo.jpg"
          1 true true true (fun _ => "")) "exposure" = some (JVal.obj fields) ∧
      getKey fields "mode" = some (JVal.str "Auto") := by
  have h := c2_exposure_mode { tags := some { ExposureMode := some 0 } }
    { ExposureMode := some 0 } 0 "photo.jpg" 1 true true true (fun _ => "") rfl rfl
  rw [show specExposureMode 0 = "Auto" from by norm_num [specExposureMode]] at h
  exact h

/-- C3: for every tag dictionary carrying a truthy exposure-time value, the structured
output's `exposure.shutterSpeed` is `"1/<round(1/value)>"` when the value is below 1
and `"<value>s"` with the value printed as-is otherwise. -/
theorem c3_shutter_speed (ed : ExifData) (t : Tags) (e : ℚ) (fn : String) (fs : ℕ)
    (g i c : Bool) (loc : ℤ → String) (htags : ed.tags = some t)
    (hexp : t.ExposureTime = some e) (hne : e ≠ 0) :
    ∃ fields, getKey (buildStructuredExif ed fn fs g i c loc) "exposure" =
        some (JVal.obj fields) ∧
      getKey fields "shutterSpeed" =
        some (JVal.str (if e < 1 then "1/" ++ toString (jsRound (1 / e))
          else jsNumToString e ++ "s")) := by
  have hm : getKey (exposureFields t) "shutterSpeed" =
      some (JVal.str (shutterSpeedStr e)) := by
    rw [exposure_shutterSpeed, hexp]
    simp [hne]
  refine ⟨exposureFields t, ?_, ?_⟩
  · rw [build_exposure]
    have hval : exposureVal ed = JVal.obj (exposureFields t) := by
      simp [exposureVal, htags]
    rw [hval, isEmptyObj_obj_of_getKey hm]
    simp
  · rw [hm, shutterSpeedStr]

/-- Witness for C3: exposureTime 0.005 gives "1/200" and exposureTime 2 gives "2s". -/
theorem c3_witness :
    (∃ fields,
      getKey (buildStructuredExif { tags := some { ExposureTime := some (1 / 200) } }
          "p" 1 true true true (fun _ => "")) "exposure" = some (JVal.obj fields) ∧
      getKey fields "shutterSpeed" = some (JVal.str "1/200")) ∧
    (∃ fields,
      getKey (buildStructuredExif { tags := some { ExposureTime := some 2 } }
          "p" 1 true true true (fun _ => "")) "exposure" = some (JVal.obj fields) ∧
      getKey fields "shutterSpeed" = some (JVal.str "2s")) := by
  constructor
  · have h := c3_shutter_speed { tags := some { ExposureTime := some (1 / 200) } }
      { ExposureTime := some (1 / 200) } (1 / 200) "p" 1 true true true (fun _ => "")
      rfl rfl (by norm_num)
    rw [show (if (1/200:ℚ) < 1 then "1/" ++ toString (jsRound (1 / (1/200)))
        else jsNumToString (1/200) ++ "s") = "1/200" from by
      rw [if_pos (by norm_num)]
      norm_num [jsRound]
      decide] at h
    exact h
  · have h := c3_shutter_speed { tags := some { ExposureTime := some 2 } }
      { ExposureTime := some 2 } 2 "p" 1 true true true (fun _ => "")
      rfl rfl (by norm_num)
    rw [show (if (2:ℚ) < 1 then "1/" ++ toString (jsRound (1 / 2))
        else jsNumToString 2 ++ "s") = "2s" from by
      rw [if_neg (by norm_num)]
      rw [show jsNumToString 2 = "2" from by
        norm_num [jsNumToString, jsNumToStringNN, decExp, decExpAux]
        decide]
      rfl] at h
    exact h

/-- C4: whenever the GPS group is emitted, the decimal coordinates are present exactly
when both the stored magnitude and its stored reference are non-null (the stored
fields are the `|| null`-coercions of the tags, so a zero magnitude or empty reference
stores null); the value is the negated absolute magnitude when the reference is "S"
(resp. "W" for longitude) and the positive absolute magnitude otherwise. -/
theorem c4_gps_decimal (ed : ExifData) (t : Tags) (fn : String) (fs : ℕ)
    (g i c : Bool) (loc : ℤ → String) (htags : ed.tags = some t) (hg : g = true)
    (hcoord : truthyNum t.GPSLatitude = true ∨ truthyNum t.GPSLongitude = true) :
    ∃ fields, getKey (buildStructuredExif ed fn fs g i c loc) "gps" =
        some (JVal.obj fields) ∧
      getKey fields "latitudeDecimal" =
        (match numOrNull t.GPSLatitude, strOrNull t.GPSLatitudeRef with
          | some la, some r => some (JVal.num (if r = "S" then -|la| else |la|))
          | _, _ => none) ∧
      getKey fields "longitudeDecimal" =
        (match numOrNull t.GPSLongitude, strOrNull t.GPSLongitudeRef with
          | some lo, some r => some (JVal.num (if r = "W" then -|lo| else |lo|))
          | _, _ => none) := by
  refine ⟨gpsFields t, ?_, gps_latitudeDecimal t, gps_longitudeDecimal t⟩
  have hval : gpsVal ed g = JVal.obj (gpsFields t) := by
    rcases hcoord with h | h <;> simp [gpsVal, htags, hg, h]
  rw [build_gps, hval]

/-- Witness for C4: latitude 40.7 with latitudeRef "S" yields latitudeDecimal -40.7,
and an absent longitude yields no longitudeDecimal. -/
theorem c4_witness :
    ∃ fields,
      getKey (buildStructuredExif
          { tags := some { GPSLatitude := some 40.7, GPSLatitudeRef := some "S" } }
          "p" 1 true true true (fun _ => "")) "gps" = some (JVal.obj fields) ∧
      getKey fields "latitudeDecimal" = some (JVal.num (-(40.7 : ℚ))) ∧
      getKey fields "longitudeDecimal" = none := by
  have h := c4_gps_decimal
    { tags := some { GPSLatitude := some 40.7, GPSLatitudeRef := some "S" } }
    { GPSLatitude := some 40.7, GPSLatitudeRef := some "S" }
    "p" 1 true true true (fun _ => "") rfl rfl (Or.inl (by norm_num [truthyNum]))
  obtain ⟨fields, h1, h2, h3⟩ := h
  refine ⟨fields, h1, ?_, ?_⟩
  · rw [h2]
    rw [show numOrNull (some (40.7 : ℚ)) = some 40.7 from by norm_num [numOrNull]]
    rw [show strOrNull (some "S") = some "S" from by simp [strOrNull]]
    show some (JVal.num (if ("S" : String) = "S" then -|(40.7 : ℚ)| else |(40.7 : ℚ)|)) =
      some (JVal.num (-(40.7 : ℚ)))
    rw [if_pos rfl, abs_of_nonneg (by norm_num : (0:ℚ) ≤ 40.7)]
  · rw [h3]
    rfl

/-- C5: the gps value is null unless `includeGps` is set and at least one of the
latitude/longitude tags is defined and nonzero (a value of exactly 0 counts as
absent); when emitted, the five fields are copied through `|| null`, so each equals
the tag value when truthy and null otherwise. -/
theorem c5_gps_group (ed : ExifData) (fn : String) (fs : ℕ) (g i c : Bool)
    (loc : ℤ → String) :
    (ed.tags = none →
      getKey (buildStructuredExif ed fn fs g i c loc) "gps" = some JVal.null) ∧
    (∀ t, ed.tags = some t →
      (¬(g = true ∧ (truthyNum t.GPSLatitude = true ∨ truthyNum t.GPSLongitude = true)) →
        getKey (buildStructuredExif ed fn fs g i c loc) "gps" = some JVal.null) ∧
      ((g = true ∧ (truthyNum t.GPSLatitude = true ∨ truthyNum t.GPSLongitude = true)) →
        ∃ fields, getKey (buildStructuredExif ed fn fs g i c loc) "gps" =
            some (JVal.obj fields) ∧
          getKey fields "latitude" = some (jnum (numOrNull t.GPSLatitude)) ∧
          getKey fields "longitude" = some (jnum (numOrNull t.GPSLongitude)) ∧
          getKey fields "altitude" = some (jnum (numOrNull t.GPSAltitude)) ∧
          getKey fields "latitudeRef" = some (jstr (strOrNull t.GPSLatitudeRef)) ∧
          getKey fields "longitudeRef" = some (jstr (strOrNull t.GPSLongitudeRef)))) := by
  refine ⟨?_, fun t htags => ⟨?_, ?_⟩⟩
  · intro htags
    rw [build_gps]
    simp [gpsVal, htags]
  · intro hcond
    rw [build_gps]
    have hb : (g && (truthyNum t.GPSLatitude || truthyNum t.GPSLongitude)) = false := by
      cases hg : g <;> cases hA : truthyNum t.GPSLatitude <;>
        cases hB : truthyNum t.GPSLongitude <;> simp_all
    simp [gpsVal, htags, hb]
  · intro hcond
    obtain ⟨hg, hcoord⟩ := hcond
    have hval : gpsVal ed g = JVal.obj (gpsFields t) := by
      rcases hcoord with h | h <;> simp [gpsVal, htags, hg, h]
    exact ⟨gpsFields t, by rw [build_gps, hval], gps_latitude t, gps_longitude t,
      gps_altitude t, gps_latitudeRef t, gps_longitudeRef t⟩

/-- Witness for C5: a truthy latitude with includeGps emits the group with verbatim
fields and null defaults; includeGps off suppresses it; a latitude of exactly 0 with
no longitude counts as absent and suppresses it. -/
theorem c5_witness :
    (∃ fields,
      getKey (buildStructuredExif { tags := some { GPSLatitude := some 40.7 } }
          "p" 1 true true true (fun _ => "")) "gps" = some (JVal.obj fields) ∧
      getKey fields "latitude" = some (JVal.num 40.7) ∧
      getKey fields "altitude" = some JVal.null) ∧
    getKey (buildStructuredExif { tags := some { GPSLatitude := some 40.7 } }
        "p" 1 false true true (fun _ => "")) "gps" = some JVal.null ∧
    getKey (buildStructuredExif { tags := some { GPSLatitude := some 0 } }
        "p" 1 true true true (fun _ => "")) "gps" = some JVal.null := by
  refine ⟨?_, ?_, ?_⟩
  · have h := ((c5_gps_group { tags := some { GPSLatitude := some 40.7 } }
      "p" 1 true true true (fun _ => "")).2 { GPSLatitude := some 40.7 } rfl).2
      ⟨rfl, Or.inl (by norm_num [truthyNum])⟩
    obtain ⟨fields, h1, hlat, _, halt, _⟩ := h
    refine ⟨fields, h1, ?_, ?_⟩
    · rw [hlat, show numOrNull (some (40.7 : ℚ)) = some 40.7 from by
        norm_num [numOrNull]]
      rfl
    · rw [halt]
      rfl
  · exact ((c5_gps_group { tags := some { GPSLatitude := some 40.7 } }
      "p" 1 false true true (fun _ => "")).2 { GPSLatitude := some 40.7 } rfl).1
      (by simp)
  · exact ((c5_gps_group { tags := some { GPSLatitude := some 0 } }
      "p" 1 true true true (fun _ => "")).2 { GPSLatitude := some 0 } rfl).1
      (by norm_num [truthyNum])

/-- C1 (amended): the output always contains `fileInfo`; it contains `raw` whenever
the decoded structure has at least one key; and for a tag dictionary with no
recognized keys, `camera`, `lens` and `exposure` are absent while `gps` and
`timestamp` are null, and `imageSize` is null unless image-size inclusion applies. -/
theorem c1_invariants (ed : ExifData) (fn : String) (fs : ℕ) (g i c : Bool)
    (loc : ℤ → String) :
    (getKey (buildStructuredExif ed fn fs g i c loc) "fileInfo").isSome = true ∧
    (ed.imageSize.isSome = true ∨ ed.tags.isSome = true →
      (getKey (buildStructuredExif ed fn fs g i c loc) "raw").isSome = true) ∧
    (ed.tags = some emptyTags →
      getKey (buildStructuredExif ed fn fs g i c loc) "camera" = none ∧
      getKey (buildStructuredExif ed fn fs g i c loc) "lens" = none ∧
      getKey (buildStructuredExif ed fn fs g i c loc) "exposure" = none ∧
      getKey (buildStructuredExif ed fn fs g i c loc) "gps" = some JVal.null ∧
      getKey (buildStructuredExif ed fn fs g i c loc) "timestamp" = some JVal.null ∧
      ((i = false ∨ ed.imageSize = none) →
        getKey (buildStructuredExif ed fn fs g i c loc) "imageSize" = some JVal.null)) := by
  refine ⟨?_, ?_, ?_⟩
  · rw [build_fileInfo]
    rfl
  · intro h
    rw [build_raw, isEmptyObj_rawJVal]
    have hfalse : (ed.imageSize.isNone && ed.tags.isNone) = false := by
      rcases h with h | h
      · cases hx : ed.imageSize
        · rw [hx] at h; simp at h
        · simp [hx]
      · cases hx : ed.tags
        · rw [hx] at h; simp at h
        · simp [hx]
    rw [hfalse]
    simp
  · intro htags
    refine ⟨?_, ?_, ?_, ?_, ?_, ?_⟩
    · simp [build_camera, cameraVal, htags, cameraFields, strTagField, emptyTags,
        isEmptyObj]
    · simp [build_lens, lensVal, htags, lensFields, strTagField, numTagField,
        emptyTags, isEmptyObj]
    · simp [build_exposure, exposureVal, htags, exposureFields, strTagField,
        numTagField, definedNumField, emptyTags, isEmptyObj]
    · simp [build_gps, gpsVal, htags, emptyTags, truthyNum]
    · simp [build_timestamp, timestampField, htags, timestampVal, truthyNum, emptyTags]
    · intro h
      rw [build_imageSize]
      rcases h with h | h
      · simp [imageSizeVal, h]
      · cases i <;> simp [imageSizeVal, h]

/-- Witness for C1: on a decoded structure with an empty tag dictionary and no image
size, with image-size inclusion off, the groups collapse as described while fileInfo
and raw are present. -/
theorem c1_witness :
    (getKey (buildStructuredExif { tags := some emptyTags } "unknown" 0 true false true
        (fun _ => "")) "fileInfo").isSome = true ∧
    (getKey (buildStructuredExif { tags := some emptyTags } "unknown" 0 true false true
        (fun _ => "")) "raw").isSome = true ∧
    getKey (buildStructuredExif { tags := some emptyTags } "unknown" 0 true false true
        (fun _ => "")) "camera" = none ∧
    getKey (buildStructuredExif { tags := some emptyTags } "unknown" 0 true false true
        (fun _ => "")) "lens" = none ∧
    getKey (buildStructuredExif { tags := some emptyTags } "unknown" 0 true false true
        (fun _ => "")) "exposure" = none ∧
    getKey (buildStructuredExif { tags := some emptyTags } "unknown" 0 true false true
        (fun _ => "")) "gps" = some JVal.null ∧
    getKey (buildStructuredExif { tags := some emptyTags } "unknown" 0 true false true
        (fun _ => "")) "timestamp" = some JVal.null ∧
    getKey (buildStructuredExif { tags := some emptyTags } "unknown" 0 true false true
        (fun _ => "")) "imageSize" = some JVal.null := by
  have T := c1_invariants { tags := some emptyTags } "unknown" 0 true false true
    (fun _ => "")
  obtain ⟨h1, h2, h3⟩ := T
  have hparts := h3 rfl
  exact ⟨h1, h2 (Or.inr rfl), hparts.1, hparts.2.1, hparts.2.2.1, hparts.2.2.2.1,
    hparts.2.2.2.2.1, hparts.2.2.2.2.2 (Or.inl rfl)⟩

/-- Counterexample to C1 as stated: an item whose decode returns an entirely empty
structure is processed successfully, yet the cleanup pass deletes `raw` (the empty
object), so the output does not contain the `raw` field. -/
theorem c1_counterexample :
    (processItem
        { json := [],
          binary := some [("data", { data := "zz" })],
          params := {},
          env :=
            { binaryBuffer := Except.ok { length := 4 },
              httpResponse := Except.error "unused",
              parse := fun _ => Except.ok {},
              toLocaleString := fun _ => "" } }).map
      (fun s => getKey s "raw") = Except.ok none := by
  have hp : processItem
      { json := [],
        binary := some [("data", { data := "zz" })],
        params := {},
        env :=
          { binaryBuffer := Except.ok { length := 4 },
            httpResponse := Except.error "unused",
            parse := fun _ => Except.ok {},
            toLocaleString := fun _ => "" } } =
      Except.ok (buildStructuredExif {} "zz" 4 true true true (fun _ => "")) := rfl
  rw [hp, exceptMap_ok, build_raw, isEmptyObj_rawJVal]
  rfl

/-- C6 (amended): the timestamp is selected from the first defined-and-nonzero tag in
the priority order DateTimeOriginal, DateTime, DateTimeDigitized (JS `||` skips a
zero-valued tag); when none of the three date tags is truthy the field is null; when a
value d is selected, the field is the converted record {original, iso, formatted}
built from d interpreted as epoch seconds (times 1000) if conversion is on, and the
bare numeric value otherwise. -/
theorem c6_timestamp (ed : ExifData) (t : Tags) (fn : String) (fs : ℕ) (g i c : Bool)
    (loc : ℤ → String) (htags : ed.tags = some t) :
    (truthyNum t.DateTime = false ∧ truthyNum t.DateTimeOriginal = false ∧
        truthyNum t.DateTimeDigitized = false →
      getKey (buildStructuredExif ed fn fs g i c loc) "timestamp" = some JVal.null) ∧
    (∀ d : ℚ, pickDateTime t = some d → d ≠ 0 →
      getKey (buildStructuredExif ed fn fs g i c loc) "timestamp" =
        some (if c then
            JVal.obj
              [("original", JVal.num d),
                ("iso", JVal.str (toISOString (jsTrunc (d * 1000)))),
                ("formatted", JVal.str (loc (jsTrunc (d * 1000))))]
          else JVal.num d)) := by
  constructor
  · rintro ⟨h1, h2, h3⟩
    rw [build_timestamp]
    simp [timestampField, htags, timestampVal, h1, h2, h3]
  · intro d hpick hd
    rw [build_timestamp]
    have htru : truthyNum (pickDateTime t) = true := by
      rw [hpick]
      simp [truthyNum, hd]
    have hguard : (truthyNum t.DateTime || truthyNum t.DateTimeOriginal ||
        truthyNum t.DateTimeDigitized) = true := by
      unfold pickDateTime at hpick
      by_cases hA : truthyNum t.DateTimeOriginal = true
      · simp [hA]
      · by_cases hB : truthyNum t.DateTime = true
        · simp [hB]
        · rw [if_neg hA, if_neg hB] at hpick
          have hC : truthyNum t.DateTimeDigitized = true := by
            rw [hpick]
            simp [truthyNum, hd]
          simp [hC]
    have hfield : timestampField ed c loc = timestampVal t c loc := by
      simp [timestampField, htags]
    rw [hfield]
    unfold timestampVal
    rw [if_pos hguard]
    cases c with
    | false =>
      rw [if_neg (by simp)]
      rw [hpick]
      simp [jnum]
    | true =>
      rw [if_pos (by simp [htru])]
      rw [hpick]
      simp

/-- Witness for C6: tag 1609459200 (epoch seconds) with conversion on yields the UTC
ISO string 2021-01-01T00:00:00.000Z. -/
theorem c6_witness :
    getKey (buildStructuredExif { tags := some { DateTimeOriginal := some 1609459200 } }
        "p" 1 true true true (fun _ => "")) "timestamp" =
      some (JVal.obj
        [("original", JVal.num 1609459200),
          ("iso", JVal.str "2021-01-01T00:00:00.000Z"),
          ("formatted", JVal.str "")]) := by
  have h := (c6_timestamp { tags := some { DateTimeOriginal := some 1609459200 } }
      { DateTimeOriginal := some 1609459200 } "p" 1 true true true (fun _ => "") rfl).2
      1609459200 (by norm_num [pickDateTime, truthyNum]) (by norm_num)
  rw [h, if_pos rfl]
  rw [show jsTrunc ((1609459200 : ℚ) * 1000) = 1609459200000 from by
    norm_num [jsTrunc]]
  rw [show toISOString 1609459200000 = "2021-01-01T00:00:00.000Z" from by decide]

/-- Counterexample to C6 as stated: DateTimeOriginal is defined with value 0 (the Unix
epoch) and conversion is on; derived from the first defined tag, the timestamp should
be the converted record for 0, but the truthiness-based guard treats the zero tag as
absent and the code emits null. -/
theorem c6_counterexample :
    getKey (buildStructuredExif { tags := some { DateTimeOriginal := some 0 } } "p" 1
        true true true (fun _ => "")) "timestamp" = some JVal.null := by
  rw [build_timestamp]
  norm_num [timestampField, timestampVal, truthyNum]

/-- C7 (amended): formatFileSize of 0 is "0 Bytes", and for every positive byte count
below 1024^5 the result is the 1024^i-scaled value (i the base-1024 integer logarithm
of the count) rounded to two decimal places with trailing zeros stripped, a space, and
a unit taken from the five-entry table. -/
theorem c7_format_file_size (b : ℕ) (h1 : 0 < b) (h2 : b < 1024 ^ 5) :
    formatFileSize 0 = "0 Bytes" ∧
    ∃ u, u ∈ sizes ∧
      formatFileSize b =
        jsNumToString (roundTo2 ((b : ℚ) / 1024 ^ Nat.log 1024 b)) ++ " " ++ u := by
  have hlt : Nat.log 1024 b < 5 :=
    (Nat.lt_pow_iff_log_lt (by norm_num) (Nat.pos_iff_ne_zero.mp h1)).mp h2
  have hlen : Nat.log 1024 b < sizes.length := by simpa [sizes] using hlt
  refine ⟨rfl, sizes.get ⟨Nat.log 1024 b, hlen⟩, List.get_mem _ _ _, ?_⟩
  rw [formatFileSize, if_neg (Nat.pos_iff_ne_zero.mp h1)]
  rw [List.get?_eq_get hlen]
  rfl

/-- Witness for C7: the general formula applies at 1024 bytes, and concretely
formatFileSize sends 1024 to "1 KB", 1536 to "1.5 KB" and 0 to "0 Bytes". -/
theorem c7_witness :
    (∃ u, u ∈ sizes ∧
      formatFileSize 1024 =
        jsNumToString (roundTo2 ((1024 : ℚ) / 1024 ^ Nat.log 1024 1024)) ++ " " ++ u) ∧
    formatFileSize 1024 = "1 KB" ∧ formatFileSize 1536 = "1.5 KB" ∧
    formatFileSize 0 = "0 Bytes" := by
  have hlog1 : Nat.log 1024 1024 = 1 := by
    have h := Nat.log_pow (by norm_num : (1:ℕ) < 1024) 1
    simpa using h
  refine ⟨(c7_format_file_size 1024 (by norm_num) (by norm_num)).2, ?_, ?_, rfl⟩
  · norm_num [formatFileSize, hlog1, roundTo2, jsNumToString, jsNumToStringNN, decExp,
      decExpAux, sizes]
    decide
  · have hlog2 : Nat.log 1024 1536 = 1 :=
      Nat.log_eq_of_pow_le_of_lt_pow (by norm_num : (1024:ℕ) ^ 1 ≤ 1536)
        (by norm_num : (1536:ℕ) < 1024 ^ (1 + 1))
    norm_num [formatFileSize, hlog2, roundTo2, jsNumToString, jsNumToStringNN, decExp,
      decExpAux, padZeros, sizes]
    decide

/-- Counterexample to C7 as stated: at 1024^5 bytes the magnitude index is 5, past the
end of the unit table, and the rendered unit is the string "undefined", which is not
one of the five units. -/
theorem c7_counterexample :
    formatFileSize (1024 ^ 5) = "1 undefined" ∧ "undefined" ∉ sizes := by
  constructor
  · have hb : (1024:ℕ) ^ 5 = 1125899906842624 := by norm_num
    have h : Nat.log 1024 1125899906842624 = 5 := by
      rw [← hb]
      exact Nat.log_pow (by norm_num) 5
    rw [hb, formatFileSize, if_neg (by norm_num), h]
    have hc : ((1125899906842624:ℕ):ℚ) = (1125899906842624:ℚ) := by norm_num
    rw [hc]
    rw [show roundTo2 ((1125899906842624:ℚ) / 1024 ^ 5) = 1 from by norm_num [roundTo2]]
    rw [show jsNumToString 1 = "1" from by
      norm_num [jsNumToString, jsNumToStringNN, decExp, decExpAux]
      decide]
    rfl
  · decide

/-- C8: when processing of the item at position i fails: in continue-on-fail mode the
batch still succeeds with one output per input, and the i-th output is the degraded
item (the original json fields plus the error message under "error", the original
binary payload, and the failing index as pairedItem) and nothing else (thus no partial
structured metadata); otherwise, when every earlier item succeeds, the batch aborts
with the error annotated with index i, emitting no items. -/
theorem c8_error_policy (ctxs : List ItemCtx) (i : ℕ) (cx : ItemCtx) (m : String)
    (hi : ctxs.get? i = some cx) (hfail : processItem cx = Except.error m) :
    (∃ outs, execute true ctxs = Except.ok outs ∧ outs.length = ctxs.length ∧
      outs.get? i = some (failureItem cx i m)) ∧
    ((∀ j cj, j < i → ctxs.get? j = some cj → ∃ s, processItem cj = Except.ok s) →
      execute false ctxs = Except.error (i, m)) := by
  constructor
  · refine ⟨mapOut 0 ctxs, executeFrom_continue 0 ctxs, mapOut_length 0 ctxs, ?_⟩
    rw [mapOut_get?, hi]
    simp [hfail]
  · intro hok
    have h := executeFrom_abort 0 ctxs i cx m hi hfail hok
    simpa using h

/-- Witness for C8: a two-item batch whose second item lacks binary data; with
continue-on-fail the batch succeeds and the second output is the degraded item, and
without it the batch aborts annotated with index 1. -/
theorem c8_witness :
    (∃ outs,
      execute true
          [{ json := [("a", JVal.str "b")],
             binary := some [("data", { data := "zz" })], params := {},
             env := { binaryBuffer := Except.ok { length := 4 },
                      httpResponse := Except.error "unused",
                      parse := fun _ => Except.ok {}, toLocaleString := fun _ => "" } },
           { json := [], binary := none, params := {},
             env := { binaryBuffer := Except.ok { length := 4 },
                      httpResponse := Except.error "unused",
                      parse := fun _ => Except.ok {}, toLocaleString := fun _ => "" } }] =
        Except.ok outs ∧
      outs.length = 2 ∧
      outs.get? 1 = some (failureItem
        { json := [], binary := none, params := {},
          env := { binaryBuffer := Except.ok { length := 4 },
                   httpResponse := Except.error "unused",
                   parse := fun _ => Except.ok {}, toLocaleString := fun _ => "" } }
        1 "No binary data found in property \"data\"")) ∧
    execute false
        [{ json := [("a", JVal.str "b")],
           binary := some [("data", { data := "zz" })], params := {},
           env := { binaryBuffer := Except.ok { length := 4 },
                    httpResponse := Except.error "unused",
                    parse := fun _ => Except.ok {}, toLocaleString := fun _ => "" } },
         { json := [], binary := none, params := {},
           env := { binaryBuffer := Except.ok { length := 4 },
                    httpResponse := Except.error "unused",
                    parse := fun _ => Except.ok {}, toLocaleString := fun _ => "" } }] =
      Except.error (1, "No binary data found in property \"data\"") := by
  have T := c8_error_policy
    [{ json := [("a", JVal.str "b")],
       binary := some [("data", { data := "zz" })], params := {},
       env := { binaryBuffer := Except.ok { length := 4 },
                httpResponse := Except.error "unused",
                parse := fun _ => Except.ok {}, toLocaleString := fun _ => "" } },
     { json := [], binary := none, params := {},
       env := { binaryBuffer := Except.ok { length := 4 },
                httpResponse := Except.error "unused",
                parse := fun _ => Except.ok {}, toLocaleString := fun _ => "" } }]
    1
    { json := [], binary := none, params := {},
      env := { binaryBuffer := Except.ok { length := 4 },
               httpResponse := Except.error "unused",
               parse := fun _ => Except.ok {}, toLocaleString := fun _ => "" } }
    "No binary data found in property \"data\"" rfl rfl
  refine ⟨T.1, T.2 ?_⟩
  intro j cj hj hcj
  have hj0 : j = 0 := by omega
  subst hj0
  cases hcj
  exact ⟨buildStructuredExif {} "zz" 4 true true true (fun _ => ""), rfl⟩

/-- C9: for every successfully processed item of a batch whose execution returned, the
emitted item is the original json with the structured object merged under the
configured output property: that key holds the structured object and every other key
is unchanged. -/
theorem c9_success_merge (cof : Bool) (ctxs : List ItemCtx) (outs : List OutItem)
    (h : execute cof ctxs = Except.ok outs) (i : ℕ) (cx : ItemCtx)
    (s : List (String × JVal)) (hi : ctxs.get? i = some cx)
    (hs : processItem cx = Except.ok s) :
    outs.get? i = some (successItem cx s) ∧
    getKey (successItem cx s).json cx.params.outputProperty = some (JVal.obj s) ∧
    ∀ k, k ≠ cx.params.outputProperty →
      getKey (successItem cx s).json k = getKey cx.json k := by
  have houts : outs = mapOut 0 ctxs := executeFrom_ok_eq h
  refine ⟨?_, ?_, ?_⟩
  · rw [houts, mapOut_get?, hi]
    simp [hs]
  · exact getKey_setKey_same cx.json cx.params.outputProperty (JVal.obj s)
  · intro k hk
    exact getKey_setKey_other cx.json cx.params.outputProperty (JVal.obj s) k
      (Ne.symm hk)

/-- Witness for C9: a one-item batch whose item succeeds; its output holds the
structured object under "exif" and keeps the key "a" unchanged. -/
theorem c9_witness :
    (mapOut 0
        [{ json := [("a", JVal.str "b")],
           binary := some [("data", { data := "zz" })], params := {},
           env := { binaryBuffer := Except.ok { length := 4 },
                    httpResponse := Except.error "unused",
                    parse := fun _ => Except.ok {}, toLocaleString := fun _ => "" } }]).get? 0 =
      some (successItem
        { json := [("a", JVal.str "b")],
          binary := some [("data", { data := "zz" })], params := {},
          env := { binaryBuffer := Except.ok { length := 4 },
                   httpResponse := Except.error "unused",
                   parse := fun _ => Except.ok {}, toLocaleString := fun _ => "" } }
        (buildStructuredExif {} "zz" 4 true true true (fun _ => ""))) ∧
    getKey (successItem
        { json := [("a", JVal.str "b")],
          binary := some [("data", { data := "zz" })], params := {},
          env := { binaryBuffer := Except.ok { length := 4 },
                   httpResponse := Except.error "unused",
                   parse := fun _ => Except.ok {}, toLocaleString := fun _ => "" } }
        (buildStructuredExif {} "zz" 4 true true true (fun _ => ""))).json "exif" =
      some (JVal.obj (buildStructuredExif {} "zz" 4 true true true (fun _ => ""))) ∧
    getKey (successItem
        { json := [("a", JVal.str "b")],
          binary := some [("data", { data := "zz" })], params := {},
          env := { binaryBuffer := Except.ok { length := 4 },
                   httpResponse := Except.error "unused",
                   parse := fun _ => Except.ok {}, toLocaleString := fun _ => "" } }
        (buildStructuredExif {} "zz" 4 true true true (fun _ => ""))).json "a" =
      some (JVal.str "b") := by
  have T := c9_success_merge true
    [{ json := [("a", JVal.str "b")],
       binary := some [("data", { data := "zz" })], params := {},
       env := { binaryBuffer := Except.ok { length := 4 },
                httpResponse := Except.error "unused",
                parse := fun _ => Except.ok {}, toLocaleString := fun _ => "" } }]
    (mapOut 0
      [{ json := [("a", JVal.str "b")],
         binary := some [("data", { data := "zz" })], params := {},
         env := { binaryBuffer := Except.ok { length := 4 },
                  httpResponse := Except.error "unused",
                  parse := fun _ => Except.ok {}, toLocaleString := fun _ => "" } }])
    (executeFrom_continue 0 _) 0
    { json := [("a", JVal.str "b")],
      binary := some [("data", { data := "zz" })], params := {},
      env := { binaryBuffer := Except.ok { length := 4 },
               httpResponse := Except.error "unused",
               parse := fun _ => Except.ok {}, toLocaleString := fun _ => "" } }
    (buildStructuredExif {} "zz" 4 true true true (fun _ => "")) rfl rfl
  refine ⟨T.1, T.2.1, ?_⟩
  rw [T.2.2 "a" (by decide)]
  rfl

/-- C10: for every item of a batch whose execution returned, a successfully processed
item is emitted with no binary property at all, even when the input carried binary
data, while a failed item in continue-on-fail mode keeps the input's binary payload. -/
theorem c10_binary_excluded (cof : Bool) (ctxs : List ItemCtx) (outs : List OutItem)
    (h : execute cof ctxs = Except.ok outs) (i : ℕ) (cx : ItemCtx)
    (hi : ctxs.get? i = some cx) :
    (∀ s, processItem cx = Except.ok s →
      outs.get? i = some (successItem cx s) ∧ (successItem cx s).binary = none) ∧
    (∀ m, processItem cx = Except.error m →
      outs.get? i = some (failureItem cx i m) ∧
        (failureItem cx i m).binary = cx.binary) := by
  have houts : outs = mapOut 0 ctxs := executeFrom_ok_eq h
  constructor
  · intro s hs
    refine ⟨?_, rfl⟩
    rw [houts, mapOut_get?, hi]
    simp [hs]
  · intro m hm
    refine ⟨?_, rfl⟩
    rw [houts, mapOut_get?, hi]
    simp [hm]

/-- Witness for C10: a two-item batch in continue-on-fail mode; the first item
succeeds although it carried binary data and its output has no binary, the second
fails and its output keeps the input's binary payload. -/
theorem c10_witness :
    ((successItem
        { json := [("a", JVal.str "b")],
          binary := some [("data", { data := "zz" })], params := {},
          env := { binaryBuffer := Except.ok { length := 4 },
                   httpResponse := Except.error "unused",
                   parse := fun _ => Except.ok {}, toLocaleString := fun _ => "" } }
        (buildStructuredExif {} "zz" 4 true true true (fun _ => ""))).binary = none) ∧
    ((failureItem
        { json := [], binary := some [("extra", { data := "yy" })],
          params := { binaryProperty := "data" },
          env := { binaryBuffer := Except.ok { length := 4 },
                   httpResponse := Except.error "unused",
                   parse := fun _ => Except.ok {}, toLocaleString := fun _ => "" } }
        1 "No binary data found in property \"data\"").binary =
      some [("extra", { data := "yy" })]) ∧
    (mapOut 0
        [{ json := [("a", JVal.str "b")],
           binary := some [("data", { data := "zz" })], params := {},
           env := { binaryBuffer := Except.ok { length := 4 },
                    httpResponse := Except.error "unused",
                    parse := fun _ => Except.ok {}, toLocaleString := fun _ => "" } },
         { json := [], binary := some [("extra", { data := "yy" })],
           params := { binaryProperty := "data" },
           env := { binaryBuffer := Except.ok { length := 4 },
                    httpResponse := Except.error "unused",
                    parse := fun _ => Except.ok {}, toLocaleString := fun _ => "" } }]).get? 0 =
      some (successItem
        { json := [("a", JVal.str "b")],
          binary := some [("data", { data := "zz" })], params := {},
          env := { binaryBuffer := Except.ok { length := 4 },
                   httpResponse := Except.error "unused",
                   parse := fun _ => Except.ok {}, toLocaleString := fun _ => "" } }
        (buildStructuredExif {} "zz" 4 true true true (fun _ => ""))) := by
  have T := c10_binary_excluded true
    [{ json := [("a", JVal.str "b")],
       binary := some [("data", { data := "zz" })], params := {},
       env := { binaryBuffer := Except.ok { length := 4 },
                httpResponse := Except.error "unused",
                parse := fun _ => Except.ok {}, toLocaleString := fun _ => "" } },
     { json := [], binary := some [("extra", { data := "yy" })],
       params := { binaryProperty := "data" },
       env := { binaryBuffer := Except.ok { length := 4 },
                httpResponse := Except.error "unused",
                parse := fun _ => Except.ok {}, toLocaleString := fun _ => "" } }]
    (mapOut 0
      [{ json := [("a", JVal.str "b")],
         binary := some [("data", { data := "zz" })], params := {},
         env := { binaryBuffer := Except.ok { length := 4 },
                  httpResponse := Except.error "unused",
                  parse := fun _ => Except.ok {}, toLocaleString := fun _ => "" } },
       { json := [], binary := some [("extra", { data := "yy" })],
         params := { binaryProperty := "data" },
         env := { binaryBuffer := Except.ok { length := 4 },
                  httpResponse := Except.error "unused",
                  parse := fun _ => Except.ok {}, toLocaleString := fun _ => "" } }])
    (executeFrom_continue 0 _) 0
    { json := [("a", JVal.str "b")],
      binary := some [("data", { data := "zz" })], params := {},
      env := { binaryBuffer := Except.ok { length := 4 },
               httpResponse := Except.error "unused",
               parse := fun _ => Except.ok {}, toLocaleString := fun _ => "" } }
    rfl
  have T2 := c10_binary_excluded true
    [{ json := [("a", JVal.str "b")],
       binary := some [("data", { data := "zz" })], params := {},
       env := { binaryBuffer := Except.ok { length := 4 },
                httpResponse := Except.error "unused",
                parse := fun _ => Except.ok {}, toLocaleString := fun _ => "" } },
     { json := [], binary := some [("extra", { data := "yy" })],
       params := { binaryProperty := "data" },
       env := { binaryBuffer := Except.ok { length := 4 },
                httpResponse := Except.error "unused",
                parse := fun _ => Except.ok {}, toLocaleString := fun _ => "" } }]
    (mapOut 0
      [{ json := [("a", JVal.str "b")],
         binary := some [("data", { data := "zz" })], params := {},
         env := { binaryBuffer := Except.ok { length := 4 },
                  httpResponse := Except.error "unused",
                  parse := fun _ => Except.ok {}, toLocaleString := fun _ => "" } },
       { json := [], binary := some [("extra", { data := "yy" })],
         params := { binaryProperty := "data" },
         env := { binaryBuffer := Except.ok { length := 4 },
                  httpResponse := Except.error "unused",
                  parse := fun _ => Except.ok {}, toLocaleString := fun _ => "" } }])
    (executeFrom_continue 0 _) 1
    { json := [], binary := some [("extra", { data := "yy" })],
      params := { binaryProperty := "data" },
      env := { binaryBuffer := Except.ok { length := 4 },
               httpResponse := Except.error "unused",
               parse := fun _ => Except.ok {}, toLocaleString := fun _ => "" } }
    rfl
  refine ⟨?_, ?_, ?_⟩
  · exact (T.1 (buildStructuredExif {} "zz" 4 true true true (fun _ => "")) rfl).2
  · exact (T2.2 "No binary data found in property \"data\"" rfl).2
  · exact (T.1 (buildStructuredExif {} "zz" 4 true true true (fun _ => "")) rfl).1

end ExifReader
